import Mathlib

/-!
# The `rpc_token_call` operator and the runtime-graph export declaration

A shallow embedding of

* `paddle/fluid/operators/collective/rpc_token_call_op.cc`: the operator class
  `RpcTokenCallOp` (`InferShape`, `GetExpectedKernelType`), its proto maker
  `RpcTokenCallOpMaker::Make`, and the three registrations at the end of the file;
* `paddle/fluid/framework/io/save_runtime_graph.h`: the declaration of
  `save_runtime_cinn_graph`.

The host framework (operator registry, attribute checker, kernel dispatcher, the kernel
template `RpcTokenCallOpKernel<T>` from `rpc_token_call_op.h`, the body of
`save_runtime_cinn_graph`) is not among the source files.  Every definition that stands for
such a missing part says so in its doc comment; the helper `IndicateVarDataType` and the
kernel semantics are taken as parameters wherever a statement does not depend on them.
-/

namespace paddle

namespace framework

/-- Modelled from the spec: the error taxonomy of section 7, extended by the configuration
error that testable property 5 names.  In the source every failure is a C++ exception raised
by framework code that is not among the source files. -/
inductive Error where
  | KernelTypeError
  | ConfigError
  | IoError
  | RemoteInvocationError
  deriving DecidableEq, Repr

/-- Equality of results is decidable when equality of errors and of values is. -/
instance instDecidableEqExcept {ε α : Type} [DecidableEq ε] [DecidableEq α] :
    DecidableEq (Except ε α)
  | .ok a, .ok b =>
    if h : a = b then isTrue (congrArg Except.ok h)
    else isFalse fun h' => h (Except.ok.inj h')
  | .error a, .error b =>
    if h : a = b then isTrue (congrArg Except.error h)
    else isFalse fun h' => h (Except.error.inj h')
  | .ok _, .error _ => isFalse fun h' => Except.noConfusion h'
  | .error _, .ok _ => isFalse fun h' => Except.noConfusion h'

/-- Modelled from the spec: the element types of a tensor.  The enumeration
`proto::VarType::Type` is declared outside the source files; `INT32` and `INT64` are the two
element types the kernel registrations name (`int`, `int64_t`), `OTHER n` stands for any
other element type. -/
inductive DataType where
  | INT32
  | INT64
  | OTHER (code : Nat)
  deriving DecidableEq, Repr

/-- Modelled from the spec: the device classes for which kernels are registered
(`REGISTER_OP_CPU_KERNEL`, `REGISTER_OP_CUDA_KERNEL`). -/
inductive PlaceKind where
  | CPU
  | CUDA
  deriving DecidableEq, Repr

/-- Modelled from the spec: the target device of an execution context (`platform::Place` is
declared outside the source files): the host, or an accelerator with a device number. -/
inductive Place where
  | CPUPlace
  | CUDAPlace (device : Nat)
  deriving DecidableEq, Repr

/-- The device class of a place. -/
def Place.kind : Place → PlaceKind
  | .CPUPlace => .CPU
  | .CUDAPlace _ => .CUDA

/-- The types of the attributes declared in `RpcTokenCallOpMaker::Make`:
`std::vector<std::string>`, `std::string` and `bool`. -/
inductive AttrType where
  | STRINGS
  | STRING
  | BOOLEAN
  deriving DecidableEq, Repr

/-- An attribute value of one of the three types used in `Make`. -/
inductive Attribute where
  | STRINGS (v : List String)
  | STRING (v : String)
  | BOOLEAN (v : Bool)
  deriving DecidableEq, Repr

/-- The type of an attribute value. -/
def Attribute.type : Attribute → AttrType
  | .STRINGS _ => .STRINGS
  | .STRING _ => .STRING
  | .BOOLEAN _ => .BOOLEAN

/-- An attribute map: attribute name to value, first binding wins. -/
abbrev AttributeMap := List (String × Attribute)

/-- A tensor as far as this operator looks at it: its element type (`none` while the
variable is not initialised), its shape and its integer contents. -/
structure Tensor where
  dtype : Option DataType
  dims : List Nat
  data : List Int
  deriving DecidableEq, Repr

/-- The part of `framework::ExecutionContext` that the operator reads: the input variables
by name, the attributes, and the place. -/
structure ExecutionContext where
  inputs : List (String × Tensor)
  attrs : AttributeMap
  place : Place
  deriving DecidableEq, Repr

/-- The accessor `ctx.GetPlace()`. -/
def ExecutionContext.GetPlace (ctx : ExecutionContext) : Place := ctx.place

/-- The accessor `ctx.Input(name)`. -/
def ExecutionContext.Input (ctx : ExecutionContext) (name : String) : Option Tensor :=
  ctx.inputs.lookup name

/-- The accessor `ctx.Attr(name)`. -/
def ExecutionContext.Attr (ctx : ExecutionContext) (name : String) : Option Attribute :=
  ctx.attrs.lookup name

/-- The kernel-type descriptor built by `framework::OpKernelType(dtype, place)`: the two
constructor arguments that `GetExpectedKernelType` passes. -/
structure OpKernelType where
  data_type_ : DataType
  place_ : Place
  deriving DecidableEq, Repr

/-- The type of the helper `OperatorWithKernel::IndicateVarDataType(ctx, name)`, whose body is
not among the source files: it yields the data type of the named input or raises. -/
abbrev VarDataTypeFn := ExecutionContext → String → Except Error DataType

/-- Modelled from the spec: `OperatorWithKernel::IndicateVarDataType`, missing from the source
files.  Section 7 of the spec: an unresolved input data type during kernel-type resolution is
a `KernelTypeError`; otherwise the result is the input tensor's declared element type. -/
def IndicateVarDataType : VarDataTypeFn := fun ctx name =>
  match ctx.Input name with
  | some t =>
    match t.dtype with
    | some d => .ok d
    | none => .error .KernelTypeError
  | none => .error .KernelTypeError

/-- The part of `framework::InferShapeContext` that shape inference could touch: the
shapes of the inputs and the shape metadata of the outputs, by variable name. -/
structure InferShapeContext where
  input_dims : List (String × List Int)
  output_dims : List (String × List Int)
  deriving DecidableEq, Repr

end framework

namespace operators

open framework

/-- The method `RpcTokenCallOp::InferShape(framework::InferShapeContext* ctx) const override {}`
(line 27): the body is empty, so the context reached through the pointer is handed back as it
came and no exception is raised. -/
def RpcTokenCallOp.InferShape (ctx : InferShapeContext) : Except Error InferShapeContext :=
  .ok ctx

/-- The method `RpcTokenCallOp::GetExpectedKernelType` (lines 30-34):
`auto dtype = OperatorWithKernel::IndicateVarDataType(ctx, "X");`
`return framework::OpKernelType(dtype, ctx.GetPlace());`
The helper is the parameter `indicate`; an exception it raises leaves the function. -/
def RpcTokenCallOp.GetExpectedKernelType (indicate : VarDataTypeFn)
    (ctx : ExecutionContext) : Except Error OpKernelType := do
  let dtype ← indicate ctx "X"
  return OpKernelType.mk dtype ctx.GetPlace

/-! ## The proto maker -/

/-- A declared input or output: `AddInput(name, comment)`, `AddOutput(name, comment)`. -/
structure VarDecl where
  name : String
  comment : String
  deriving DecidableEq, Repr

/-- A declared attribute: what `AddAttr<T>(name, comment)` records, the default that
`SetDefault` attaches, and the value checks attached to it (none of the calls in `Make`
attaches one). -/
structure AttrDecl where
  name : String
  type : AttrType
  comment : String
  default_value : Option Attribute
  checkers : List (Attribute → Bool)

/-- The proto that `OpProtoAndCheckerMaker` builds up. -/
structure OpProto where
  inputs : List VarDecl
  outputs : List VarDecl
  attrs : List AttrDecl
  comment : String

/-- The proto before `Make` runs. -/
def OpProto.empty : OpProto := OpProto.mk [] [] [] ""

/-- The call `AddInput(name, comment)`: one more declared input. -/
def AddInput (p : OpProto) (name comment : String) : OpProto :=
  { p with inputs := p.inputs ++ [VarDecl.mk name comment] }

/-- The call `AddOutput(name, comment)`: one more declared output. -/
def AddOutput (p : OpProto) (name comment : String) : OpProto :=
  { p with outputs := p.outputs ++ [VarDecl.mk name comment] }

/-- The call `.SetDefault(v)` on the checker that `AddAttr` returns. -/
def SetDefault (v : Attribute) (d : AttrDecl) : AttrDecl :=
  { d with default_value := some v }

/-- The call `AddAttr<T>(name, comment)` followed by the calls chained on the checker it returns. -/
def AddAttr (p : OpProto) (T : AttrType) (name comment : String)
    (chain : AttrDecl → AttrDecl) : OpProto :=
  { p with attrs := p.attrs ++ [chain (AttrDecl.mk name T comment none [])] }

/-- The call `AddComment(text)`: the comment of the proto. -/
def AddComment (p : OpProto) (text : String) : OpProto :=
  { p with comment := text }

/-- The method `RpcTokenCallOpMaker::Make` (lines 39-50), call by call. -/
def RpcTokenCallOpMaker.Make (p : OpProto) : OpProto :=
  let p := AddInput p "X" "(Tensor) Src words' ids."
  let p := AddInput p "url_id" "(Tensor) Service URL's id."
  let p := AddOutput p "Out" "(Tensor) Request id."
  let p := AddAttr p .STRINGS "url_list" "URL list." (SetDefault (.STRINGS []))
  let p := AddAttr p .STRING "vocab_path" "Vocab's absolute path." (SetDefault (.STRING ""))
  let p := AddAttr p .BOOLEAN "use_ids" "If true, use ids directly." (SetDefault (.BOOLEAN true))
  AddComment p "\nRpc Token Call Operator\n\n"

/-- The declared attributes as (name, type, default) triples. -/
def OpProto.schema (p : OpProto) : List (String × AttrType × Option Attribute) :=
  p.attrs.map fun d => (d.name, d.type, d.default_value)

/-- Modelled from the spec: the framework's attribute checker for one declared attribute,
missing from the source files (section 9: an attribute bag with defaults and a validation
step).  A supplied value must have the declared type and pass every attached check; a
missing value is filled in from the default; with neither the check fails. -/
def AttrDecl.Check (d : AttrDecl) (attrs : AttributeMap) : Except Error AttributeMap :=
  match attrs.lookup d.name with
  | some v =>
    if v.type = d.type ∧ d.checkers.all (fun c => c v) = true then .ok attrs
    else .error .ConfigError
  | none =>
    match d.default_value with
    | some v => .ok (attrs ++ [(d.name, v)])
    | none => .error .ConfigError

/-- Modelled from the spec: the framework's attribute checker for a whole proto, missing
from the source files: the declared attributes are checked in declaration order. -/
def OpProto.CheckAttrs (p : OpProto) (attrs : AttributeMap) : Except Error AttributeMap :=
  p.attrs.foldlM (fun m d => d.Check m) attrs

/-- Modelled from the spec: the path from a supplied attribute map to a resolved kernel type
(states `Idle` to `KernelTypeResolved` of section 4.2): the attributes are checked against
the proto built by `Make`, then `GetExpectedKernelType` runs on the resulting context. -/
def ResolveOp (indicate : VarDataTypeFn) (inputs : List (String × Tensor))
    (supplied : AttributeMap) (place : Place) : Except Error OpKernelType := do
  let attrs ← (RpcTokenCallOpMaker.Make OpProto.empty).CheckAttrs supplied
  RpcTokenCallOp.GetExpectedKernelType indicate (ExecutionContext.mk inputs attrs place)

/-! ## The registrations -/

/-- The template arguments with which the registrations instantiate the kernel template:
`int` and `int64_t` (lines 63-64 and 67-68). -/
inductive ElemType where
  | int
  | int64_t
  deriving DecidableEq, Repr

/-- Modelled from the spec: the element type a template argument stands for (section 6:
the kernels are templated over `int32`/`int64`); the framework's mapping from C++ types to
data types is not among the source files. -/
def ElemType.ToDataType : ElemType → DataType
  | .int => .INT32
  | .int64_t => .INT64

/-- A kernel class as the registrations name it: `ops::RpcTokenCallOpKernel<T>`. -/
inductive KernelClass where
  | RpcTokenCallOpKernel (T : ElemType)
  deriving DecidableEq, Repr

/-- The element type a kernel class is registered under: that of its template argument. -/
def KernelClass.data_type : KernelClass → DataType
  | .RpcTokenCallOpKernel T => T.ToDataType

/-- An operator registration: name, operator class, maker class, and the gradient operator
maker (`none` for a registration without gradient). -/
structure OpInfo where
  type : String
  op_class : String
  maker_class : String
  grad_op_maker : Option String
  deriving DecidableEq, Repr

/-- A registered kernel: operator name, device class, element type, kernel class. -/
structure KernelEntry where
  op_type : String
  place : PlaceKind
  data_type : DataType
  kernel : KernelClass
  deriving DecidableEq, Repr

/-- The operator and kernel tables that the registration macros fill. -/
structure OpRegistry where
  ops : List OpInfo
  kernels : List KernelEntry
  deriving DecidableEq, Repr

/-- The tables before any registration of this file has run. -/
def OpRegistry.empty : OpRegistry := OpRegistry.mk [] []

/-- Modelled from the spec: the macro `REGISTER_OP_WITHOUT_GRADIENT(op_type, op_class, maker)`,
defined outside the source files: one gradient-free operator registration. -/
def REGISTER_OP_WITHOUT_GRADIENT (r : OpRegistry) (op_type op_class maker_class : String) :
    OpRegistry :=
  { r with ops := r.ops ++ [OpInfo.mk op_type op_class maker_class none] }

/-- The entries one kernel-registration macro adds for a device class: one per kernel class
listed, keyed by that class's element type. -/
def kernelEntries (op_type : String) (place : PlaceKind) (ks : List KernelClass) :
    List KernelEntry :=
  ks.map fun k => KernelEntry.mk op_type place k.data_type k

/-- Modelled from the spec: the macro `REGISTER_OP_CPU_KERNEL(op_type, kernels...)`, defined
outside the source files: one CPU kernel registration for the listed kernel classes. -/
def REGISTER_OP_CPU_KERNEL (r : OpRegistry) (op_type : String) (ks : List KernelClass) :
    OpRegistry :=
  { r with kernels := r.kernels ++ kernelEntries op_type .CPU ks }

/-- Modelled from the spec: the macro `REGISTER_OP_CUDA_KERNEL(op_type, kernels...)`, defined
outside the source files: one CUDA kernel registration for the listed kernel classes. -/
def REGISTER_OP_CUDA_KERNEL (r : OpRegistry) (op_type : String) (ks : List KernelClass) :
    OpRegistry :=
  { r with kernels := r.kernels ++ kernelEntries op_type .CUDA ks }

/-- The three registrations of `rpc_token_call_op.cc` (lines 58-68), in file order. -/
def registrations (r : OpRegistry) : OpRegistry :=
  let r := REGISTER_OP_WITHOUT_GRADIENT r "rpc_token_call" "ops::RpcTokenCallOp"
    "ops::RpcTokenCallOpMaker"
  let r := REGISTER_OP_CPU_KERNEL r "rpc_token_call"
    [.RpcTokenCallOpKernel .int, .RpcTokenCallOpKernel .int64_t]
  REGISTER_OP_CUDA_KERNEL r "rpc_token_call"
    [.RpcTokenCallOpKernel .int, .RpcTokenCallOpKernel .int64_t]

/-- The element types registered for an operator on a device class, in registration order. -/
def OpRegistry.kernelTypes (r : OpRegistry) (op_type : String) (place : PlaceKind) :
    List DataType :=
  (r.kernels.filter fun e => e.op_type = op_type ∧ e.place = place).map fun e => e.data_type

/-- Modelled from the spec: the kernel dispatcher's lookup, missing from the source files
(section 4.2: the dispatcher selects on the resolved kernel type and device): the first
kernel registered for the operator, the device class of the place, and the data type. -/
def OpRegistry.FindKernel (r : OpRegistry) (op_type : String) (kt : OpKernelType) :
    Option KernelClass :=
  (r.kernels.find? fun e =>
    e.op_type = op_type ∧ e.place = kt.place_.kind ∧ e.data_type = kt.data_type_).map
    fun e => e.kernel

/-- What a kernel of this operator is given: the ids of input `X`, the value of the url
selector input `url_id`, and the three attributes. -/
structure KernelArgs where
  X : List Int
  url_id : Int
  url_list : List String
  vocab_path : String
  use_ids : Bool
  deriving DecidableEq, Repr

/-- The semantics of the kernel classes, whose definition (`rpc_token_call_op.h`) is not
among the source files: from the arguments and the state of the transport to a request id
and the next state, or a failure. -/
abbrev KernelSemantics (σ : Type) := KernelClass → KernelArgs → σ → Except Error (Int × σ)

/-- Modelled from the spec: dispatch on a resolved kernel type, missing from the source
files: the kernel found for the type runs; with none registered the step fails with
`KernelTypeError` (section 7: unsupported input dtype) and nothing runs. -/
def Dispatch {σ : Type} (r : OpRegistry) (compute : KernelSemantics σ) (kt : OpKernelType)
    (args : KernelArgs) (s : σ) : Except Error (Int × σ) :=
  match r.FindKernel "rpc_token_call" kt with
  | some k => compute k args s
  | none => .error .KernelTypeError

/-- Modelled from the spec: kernel-type resolution up to the choice of a kernel, missing from
the source files (sections 4.2 and 7): `GetExpectedKernelType` gives the kernel type, the
dispatcher looks the kernel up among the registered ones, and an unsupported data type, for
which none is registered, is a `KernelTypeError`. -/
def ChooseKernel (r : OpRegistry) (indicate : VarDataTypeFn) (ctx : ExecutionContext) :
    Except Error KernelClass := do
  let kt ← RpcTokenCallOp.GetExpectedKernelType indicate ctx
  match r.FindKernel "rpc_token_call" kt with
  | some k => .ok k
  | none => .error .KernelTypeError

/-- Modelled from the spec: one graph-execution step of the operator (section 4.2, states
`ShapeInferred` to `Executed`): kernel-type resolution chooses the kernel, then the chosen
kernel runs; a failure of the resolution ends the step before any kernel runs. -/
def RunStep {σ : Type} (r : OpRegistry) (indicate : VarDataTypeFn) (compute : KernelSemantics σ)
    (ctx : ExecutionContext) (args : KernelArgs) (s : σ) : Except Error (Int × σ) := do
  let k ← ChooseKernel r indicate ctx
  compute k args s

/-! ## The kernel, from its description -/

/-- The request body handed to the transport: the ids as they are, or translated tokens. -/
inductive Payload where
  | ids (v : List Int)
  | tokens (v : List String)
  deriving DecidableEq, Repr

/-- Modelled from the spec: selection of one URL from `url_list` by the selector value
(section 4.2, kernel execution).  The spec gives no result for a selector outside the list;
that case is `none`. -/
def selectUrl (url_list : List String) (url_id : Int) : Option String :=
  if 0 ≤ url_id then url_list[url_id.toNat]? else none

/-- Modelled from the spec: the kernel `RpcTokenCallOpKernel<T>::Compute`, whose definition
(`rpc_token_call_op.h`) is missing from the source files.  Section 4.2: select one URL from
`url_list` by the selector value, issue the remote call, and produce the resulting request
identifier; with `use_ids` the ids are forwarded directly, otherwise they are translated
through the vocabulary first.  The transport `send` and the translation `translate` are
parameters; `none` is a case for which the spec gives no result. -/
def RpcTokenCallOpKernel.Compute {σ : Type} (send : String → Payload → σ → Int × σ)
    (translate : String → List Int → Option (List String)) (args : KernelArgs) (s : σ) :
    Option (Int × σ) := do
  let url ← selectUrl args.url_list args.url_id
  let payload ← if args.use_ids then some (Payload.ids args.X)
    else (translate args.vocab_path args.X).map Payload.tokens
  pure (send url payload s)

end operators

namespace framework

/-! ## The runtime-graph export -/

/-- The part of `ir::Graph` (declared in `graph.h`, outside the source files) that the
export could touch: the operator nodes by name. -/
structure Graph where
  nodes : List String
  deriving DecidableEq, Repr

/-- The four artifacts of an export, one per description argument of
`save_runtime_cinn_graph`. -/
inductive Artifact where
  | clusters_ops
  | clusters_inputs
  | cluster_outputs
  | cluster_intervals
  deriving DecidableEq, Repr

/-- The file system as the export sees it: which paths can be written, and the contents of
each artifact under each path. -/
structure FileSystem where
  writable : String → Bool
  files : String → Artifact → Option String

/-- Writing one artifact under a path. -/
def FileSystem.write (fs : FileSystem) (path : String) (a : Artifact) (text : String) :
    FileSystem :=
  { fs with files := fun p b => if p = path ∧ b = a then some text else fs.files p b }

/-- Re-reading one artifact under a path. -/
def FileSystem.read (fs : FileSystem) (path : String) (a : Artifact) : Option String :=
  fs.files path a

/-- Modelled from the spec: the body of `save_runtime_cinn_graph`, of which the source files
hold only the declaration (lines 16-21: a `const ir::Graph&`, four strings, a path).
Section 4.1: each description is written to its own artifact under the path; a path that
cannot be written gives `IoError` and leaves nothing written; the graph is not mutated.
The result is the graph after the call and the file system after the call. -/
def save_runtime_cinn_graph (graph : Graph) (clusters_ops clusters_inputs cluster_outputs
    cluster_intervals saved_path : String) (fs : FileSystem) :
    Except Error (Graph × FileSystem) :=
  if fs.writable saved_path then
    let fs := fs.write saved_path .clusters_ops clusters_ops
    let fs := fs.write saved_path .clusters_inputs clusters_inputs
    let fs := fs.write saved_path .cluster_outputs cluster_outputs
    let fs := fs.write saved_path .cluster_intervals cluster_intervals
    .ok (graph, fs)
  else .error .IoError

/-- A cluster (section 3): its operators, its input tensor names, its output tensor
names, in order, and its interval. -/
structure Cluster where
  ops : List String
  inputs : List String
  outputs : List String
  interval : Nat × Nat
  deriving DecidableEq, Repr

/-- Cutting a character list at every occurrence of a separator. -/
def splitAt (sep : Char) : List Char → List (List Char)
  | [] => [[]]
  | c :: cs =>
    if c = sep then [] :: splitAt sep cs
    else
      match splitAt sep cs with
      | [] => [[c]]
      | w :: ws => (c :: w) :: ws

/-- An example encoding of per-cluster name lists, for use where a concrete encoding is
needed (the spec leaves the encoding to the caller): names joined by commas, clusters joined
by semicolons. -/
def encodeNames (lists : List (List String)) : String :=
  ";".intercalate (lists.map fun names => ",".intercalate names)

/-- The decoder for `encodeNames`: cut at semicolons, then at commas. -/
def decodeNames (text : String) : Option (List (List String)) :=
  some ((splitAt ';' text.data).map fun part => (splitAt ',' part).map String.mk)

end framework

/-! ## Theorems -/

open framework operators

/-- C1: whenever `IndicateVarDataType(ctx, "X")` gives a data type, `GetExpectedKernelType`
returns a kernel-type descriptor whose data type is that data type and whose place is
`ctx.GetPlace()`. -/
theorem getExpectedKernelType_dtype_place (indicate : VarDataTypeFn) (ctx : ExecutionContext)
    (d : DataType) (h : indicate ctx "X" = .ok d) :
    ∃ kt, RpcTokenCallOp.GetExpectedKernelType indicate ctx = .ok kt ∧
      kt.data_type_ = d ∧ kt.place_ = ctx.GetPlace := by
  refine ⟨OpKernelType.mk d ctx.GetPlace, ?_, rfl, rfl⟩
  unfold RpcTokenCallOp.GetExpectedKernelType
  rw [h]
  rfl

/-- C1, at a context whose input `X` is an `int64` tensor on accelerator 0. -/
theorem getExpectedKernelType_dtype_place_witness :
    IndicateVarDataType
        (ExecutionContext.mk [("X", Tensor.mk (some .INT64) [2] [3, 7])] [] (.CUDAPlace 0))
        "X" = .ok .INT64 ∧
      ∃ kt, RpcTokenCallOp.GetExpectedKernelType IndicateVarDataType
          (ExecutionContext.mk [("X", Tensor.mk (some .INT64) [2] [3, 7])] [] (.CUDAPlace 0))
          = .ok kt ∧
        kt.data_type_ = .INT64 ∧ kt.place_ = .CUDAPlace 0 :=
  ⟨by decide, getExpectedKernelType_dtype_place IndicateVarDataType _ .INT64 (by decide)⟩

/-- C2: for every shape-inference context, `InferShape` succeeds and hands the context back
unchanged; in particular the output shape metadata is what it was. -/
theorem inferShape_leaves_context (ctx : InferShapeContext) :
    RpcTokenCallOp.InferShape ctx = .ok ctx ∧
      ∀ ctx', RpcTokenCallOp.InferShape ctx = .ok ctx' →
        ctx'.output_dims = ctx.output_dims ∧ ctx'.input_dims = ctx.input_dims := by
  refine ⟨rfl, ?_⟩
  intro ctx' h
  have h' : ctx = ctx' := by
    simpa [RpcTokenCallOp.InferShape] using h
  subst h'
  exact ⟨rfl, rfl⟩

/-- The attribute list after `Make`: what was declared before, then the three attributes. -/
theorem make_attrs (p : OpProto) :
    (RpcTokenCallOpMaker.Make p).attrs = p.attrs ++
      [AttrDecl.mk "url_list" .STRINGS "URL list." (some (.STRINGS [])) [],
       AttrDecl.mk "vocab_path" .STRING "Vocab's absolute path." (some (.STRING "")) [],
       AttrDecl.mk "use_ids" .BOOLEAN "If true, use ids directly." (some (.BOOLEAN true)) []] := by
  simp [RpcTokenCallOpMaker.Make, AddInput, AddOutput, AddAttr, AddComment, SetDefault]

/-- The attribute check over the proto of `Make`, step by step. -/
theorem checkAttrs_make (m : AttributeMap) :
    (RpcTokenCallOpMaker.Make OpProto.empty).CheckAttrs m =
      (((AttrDecl.mk "url_list" .STRINGS "URL list." (some (.STRINGS [])) []).Check m).bind
        fun m1 =>
          ((AttrDecl.mk "vocab_path" .STRING "Vocab's absolute path."
            (some (.STRING "")) []).Check m1).bind
        fun m2 =>
          (AttrDecl.mk "use_ids" .BOOLEAN "If true, use ids directly."
            (some (.BOOLEAN true)) []).Check m2) := by
  unfold OpProto.CheckAttrs
  rw [make_attrs]
  simp only [OpProto.empty, List.nil_append, List.foldlM_cons, List.foldlM_nil, bind_pure]
  rfl

/-- A successful check of one declaration fills a missing value in from its default. -/
theorem check_fills_default (d : AttrDecl) (m m' : AttributeMap) (v : Attribute)
    (hc : d.Check m = .ok m') (hn : m.lookup d.name = none) (hd : d.default_value = some v) :
    m'.lookup d.name = some v := by
  unfold AttrDecl.Check at hc
  rw [hn, hd] at hc
  have h' : m ++ [(d.name, v)] = m' := by simpa using hc
  rw [← h', List.lookup_append, hn]
  simp

/-- A successful check of one declaration keeps every binding that is looked up. -/
theorem check_keeps (d : AttrDecl) (m m' : AttributeMap) (n : String) (v : Attribute)
    (hc : d.Check m = .ok m') (hv : m.lookup n = some v) : m'.lookup n = some v := by
  unfold AttrDecl.Check at hc
  split at hc
  · split at hc
    · have h' : m = m' := by simpa using hc
      rw [← h']; exact hv
    · cases hc
  · split at hc
    · rename_i w _
      have h' : m ++ [(d.name, w)] = m' := by simpa using hc
      rw [← h', List.lookup_append, hv]
      rfl
    · cases hc

/-- A successful check of one declaration leaves the other names as they were. -/
theorem check_other (d : AttrDecl) (m m' : AttributeMap) (n : String)
    (hc : d.Check m = .ok m') (hne : n ≠ d.name) : m'.lookup n = m.lookup n := by
  unfold AttrDecl.Check at hc
  split at hc
  · split at hc
    · have h' : m = m' := by simpa using hc
      rw [← h']
    · cases hc
  · split at hc
    · rename_i w _
      have h' : m ++ [(d.name, w)] = m' := by simpa using hc
      rw [← h', List.lookup_append]
      have hb : (n == d.name) = false := by simpa using hne
      have : ([(d.name, w)] : AttributeMap).lookup n = none := by
        simp [List.lookup_cons, hb]
      rw [this]
      cases m.lookup n <;> rfl
    · cases hc

/-- C3: `Make` declares exactly the three attributes `url_list` (strings), `vocab_path`
(string) and `use_ids` (bool), with defaults the empty sequence, the empty string and
`true`; with no attribute supplied the checked attribute map holds exactly these defaults,
and for any supplied map that passes the check, each of the three attributes that was not
supplied has its default as value. -/
theorem make_declares_three_attrs_with_defaults :
    (RpcTokenCallOpMaker.Make OpProto.empty).schema =
        [("url_list", .STRINGS, some (.STRINGS [])),
         ("vocab_path", .STRING, some (.STRING "")),
         ("use_ids", .BOOLEAN, some (.BOOLEAN true))] ∧
      (RpcTokenCallOpMaker.Make OpProto.empty).CheckAttrs [] =
        .ok [("url_list", .STRINGS []), ("vocab_path", .STRING ""), ("use_ids", .BOOLEAN true)] ∧
      ∀ supplied attrs, (RpcTokenCallOpMaker.Make OpProto.empty).CheckAttrs supplied = .ok attrs →
        (supplied.lookup "url_list" = none → attrs.lookup "url_list" = some (.STRINGS [])) ∧
        (supplied.lookup "vocab_path" = none → attrs.lookup "vocab_path" = some (.STRING "")) ∧
        (supplied.lookup "use_ids" = none → attrs.lookup "use_ids" = some (.BOOLEAN true)) := by
  refine ⟨by simp [OpProto.schema, make_attrs, OpProto.empty], by decide, ?_⟩
  intro supplied attrs hc
  rw [checkAttrs_make] at hc
  cases h1 : (AttrDecl.mk "url_list" .STRINGS "URL list." (some (.STRINGS [])) []).Check supplied with
  | error e => rw [h1] at hc; cases hc
  | ok m1 =>
    rw [h1] at hc
    cases h2 : (AttrDecl.mk "vocab_path" .STRING "Vocab's absolute path."
        (some (.STRING "")) []).Check m1 with
    | error e =>
      have hc' := hc
      simp only [Except.bind, h2] at hc'
      cases hc'
    | ok m2 =>
      have h3 : (AttrDecl.mk "use_ids" .BOOLEAN "If true, use ids directly."
          (some (.BOOLEAN true)) []).Check m2 = .ok attrs := by
        simpa only [Except.bind, h2] using hc
      refine ⟨fun hn => ?_, fun hn => ?_, fun hn => ?_⟩
      · exact check_keeps _ _ _ _ _ h3
          (check_keeps _ _ _ _ _ h2 (check_fills_default _ _ _ _ h1 hn rfl))
      · have e1 := check_other _ _ _ "vocab_path" h1 (by decide)
        exact check_keeps _ _ _ _ _ h3 (check_fills_default _ _ _ _ h2 (e1.trans hn) rfl)
      · have e1 := check_other _ _ _ "use_ids" h1 (by decide)
        have e2 := check_other _ _ _ "use_ids" h2 (by decide)
        exact check_fills_default _ _ _ _ h3 (e2.trans (e1.trans hn)) rfl

/-- C4: the registrations register exactly one operator, `rpc_token_call`, without a gradient
operator, and for it a CPU kernel set and a CUDA kernel set that each hold exactly the element
types `int32` and `int64`; every registered kernel belongs to `rpc_token_call`. -/
theorem registrations_register_one_op_two_kernel_sets :
    (registrations OpRegistry.empty).ops =
        [OpInfo.mk "rpc_token_call" "ops::RpcTokenCallOp" "ops::RpcTokenCallOpMaker" none] ∧
      (registrations OpRegistry.empty).kernelTypes "rpc_token_call" .CPU = [.INT32, .INT64] ∧
      (registrations OpRegistry.empty).kernelTypes "rpc_token_call" .CUDA = [.INT32, .INT64] ∧
      (registrations OpRegistry.empty).kernelTypes "rpc_token_call" .CPU =
        (registrations OpRegistry.empty).kernelTypes "rpc_token_call" .CUDA ∧
      (∀ e ∈ (registrations OpRegistry.empty).kernels, e.op_type = "rpc_token_call") ∧
      (registrations OpRegistry.empty).kernels.length = 4 := by
  decide

/-- The kernel found for a supported element type on either device class is the kernel
template instantiated at that element type. -/
theorem findKernel_registered (T : ElemType) (place : Place) :
    (registrations OpRegistry.empty).FindKernel "rpc_token_call"
      (OpKernelType.mk T.ToDataType place) = some (.RpcTokenCallOpKernel T) := by
  cases T <;> cases place <;> rfl

/-- C5: for each element type `T` of the registrations, the kernel found for a CPU place and
the kernel found for a CUDA place are the same class `RpcTokenCallOpKernel<T>`; so, whatever
the semantics of the kernel classes, dispatch on the two places gives the same request id and
transport state for the same arguments. -/
theorem cpu_cuda_dispatch_same_kernel {σ : Type} (T : ElemType) (device : Nat)
    (compute : KernelSemantics σ) (args : KernelArgs) (s : σ) :
    (registrations OpRegistry.empty).FindKernel "rpc_token_call"
        (OpKernelType.mk T.ToDataType .CPUPlace) = some (.RpcTokenCallOpKernel T) ∧
      (registrations OpRegistry.empty).FindKernel "rpc_token_call"
        (OpKernelType.mk T.ToDataType (.CUDAPlace device)) = some (.RpcTokenCallOpKernel T) ∧
      Dispatch (registrations OpRegistry.empty) compute
          (OpKernelType.mk T.ToDataType .CPUPlace) args s =
        compute (.RpcTokenCallOpKernel T) args s ∧
      Dispatch (registrations OpRegistry.empty) compute
          (OpKernelType.mk T.ToDataType .CPUPlace) args s =
        Dispatch (registrations OpRegistry.empty) compute
          (OpKernelType.mk T.ToDataType (.CUDAPlace device)) args s := by
  have hcpu := findKernel_registered T .CPUPlace
  have hcuda := findKernel_registered T (.CUDAPlace device)
  refine ⟨hcpu, hcuda, ?_, ?_⟩
  · simp only [Dispatch, hcpu]
  · simp only [Dispatch, hcpu, hcuda]

/-- No kernel is registered for an element type other than `int32` and `int64`. -/
theorem findKernel_unsupported (d : DataType) (place : Place)
    (h32 : d ≠ .INT32) (h64 : d ≠ .INT64) :
    (registrations OpRegistry.empty).FindKernel "rpc_token_call" (OpKernelType.mk d place)
      = none := by
  cases d with
  | INT32 => exact absurd rfl h32
  | INT64 => exact absurd rfl h64
  | OTHER n =>
    cases place <;>
      simp [OpRegistry.FindKernel, registrations, REGISTER_OP_WITHOUT_GRADIENT,
        REGISTER_OP_CPU_KERNEL, REGISTER_OP_CUDA_KERNEL, kernelEntries, OpRegistry.empty,
        KernelClass.data_type, ElemType.ToDataType, Place.kind]

/-- C6, as stated, fails: an operator built with `use_ids = false` and no `vocab_path`
attribute passes the attribute check (with `vocab_path` empty) and its kernel type is
resolved; no configuration error is raised. -/
theorem resolve_accepts_empty_vocab_path :
    (RpcTokenCallOpMaker.Make OpProto.empty).CheckAttrs [("use_ids", .BOOLEAN false)] =
        .ok [("use_ids", .BOOLEAN false), ("url_list", .STRINGS []), ("vocab_path", .STRING "")] ∧
      ResolveOp IndicateVarDataType
          [("X", Tensor.mk (some .INT32) [2] [3, 7]), ("url_id", Tensor.mk (some .INT32) [1] [0])]
          [("use_ids", .BOOLEAN false)] .CPUPlace =
        .ok (OpKernelType.mk .INT32 .CPUPlace) ∧
      ¬ ∃ e, ResolveOp IndicateVarDataType
          [("X", Tensor.mk (some .INT32) [2] [3, 7]), ("url_id", Tensor.mk (some .INT32) [1] [0])]
          [("use_ids", .BOOLEAN false)] .CPUPlace = .error e := by
  refine ⟨by decide, by decide, ?_⟩
  rintro ⟨e, he⟩
  revert he
  cases e <;> decide

/-- A supplied value of the declared type passes the check of a declaration without
attached value checks, and the map stays as it is. -/
theorem check_supplied (d : AttrDecl) (m : AttributeMap) (v : Attribute)
    (hv : m.lookup d.name = some v) (ht : v.type = d.type) (hk : d.checkers = []) :
    d.Check m = .ok m := by
  unfold AttrDecl.Check
  rw [hv]
  simp [ht, hk]

/-- A missing value is filled in from the default of the declaration. -/
theorem check_missing (d : AttrDecl) (m : AttributeMap) (v : Attribute)
    (hn : m.lookup d.name = none) (hd : d.default_value = some v) :
    d.Check m = .ok (m ++ [(d.name, v)]) := by
  unfold AttrDecl.Check
  rw [hn, hd]

/-- C6, amended: for every configuration with `use_ids = false` and `vocab_path` empty (left
out or supplied as the empty string) whose `url_list` is left out or a string sequence, the
attribute check of the proto built by `Make` succeeds, with `use_ids = false` and
`vocab_path` empty in the checked map, and kernel-type resolution returns the descriptor of
the data type of `X` and the place whenever that data type is resolved. -/
theorem resolve_with_empty_vocab_path_succeeds (indicate : VarDataTypeFn)
    (inputs : List (String × Tensor)) (supplied : AttributeMap) (place : Place) (d : DataType)
    (huse : supplied.lookup "use_ids" = some (.BOOLEAN false))
    (hvocab : supplied.lookup "vocab_path" = none ∨
      supplied.lookup "vocab_path" = some (.STRING ""))
    (hurl : supplied.lookup "url_list" = none ∨
      ∃ l, supplied.lookup "url_list" = some (.STRINGS l))
    (hx : ∀ attrs, indicate (ExecutionContext.mk inputs attrs place) "X" = .ok d) :
    ∃ attrs, (RpcTokenCallOpMaker.Make OpProto.empty).CheckAttrs supplied = .ok attrs ∧
      attrs.lookup "use_ids" = some (.BOOLEAN false) ∧
      attrs.lookup "vocab_path" = some (.STRING "") ∧
      ResolveOp indicate inputs supplied place = .ok (OpKernelType.mk d place) := by
  obtain ⟨m1, h1⟩ : ∃ m1, (AttrDecl.mk "url_list" .STRINGS "URL list."
      (some (.STRINGS [])) []).Check supplied = .ok m1 := by
    rcases hurl with hn | ⟨l, hl⟩
    · exact ⟨_, check_missing _ _ _ hn rfl⟩
    · exact ⟨_, check_supplied _ _ _ hl rfl rfl⟩
  have hv1 : m1.lookup "vocab_path" = supplied.lookup "vocab_path" :=
    check_other _ _ _ "vocab_path" h1 (by decide)
  have hu1 : m1.lookup "use_ids" = supplied.lookup "use_ids" :=
    check_other _ _ _ "use_ids" h1 (by decide)
  obtain ⟨m2, h2⟩ : ∃ m2, (AttrDecl.mk "vocab_path" .STRING "Vocab's absolute path."
      (some (.STRING "")) []).Check m1 = .ok m2 := by
    rcases hvocab with hn | hs
    · exact ⟨_, check_missing _ _ _ (hv1.trans hn) rfl⟩
    · exact ⟨_, check_supplied _ _ _ (hv1.trans hs) rfl rfl⟩
  have hv2 : m2.lookup "vocab_path" = some (.STRING "") := by
    rcases hvocab with hn | hs
    · exact check_fills_default _ _ _ _ h2 (hv1.trans hn) rfl
    · exact check_keeps _ _ _ _ _ h2 (hv1.trans hs)
  have hu2 : m2.lookup "use_ids" = some (.BOOLEAN false) :=
    (check_other _ _ _ "use_ids" h2 (by decide)).trans (hu1.trans huse)
  have h3 : (AttrDecl.mk "use_ids" .BOOLEAN "If true, use ids directly."
      (some (.BOOLEAN true)) []).Check m2 = .ok m2 :=
    check_supplied _ _ _ hu2 rfl rfl
  have hc : (RpcTokenCallOpMaker.Make OpProto.empty).CheckAttrs supplied = .ok m2 := by
    rw [checkAttrs_make, h1]
    simp only [Except.bind, h2, h3]
  refine ⟨m2, hc, hu2, hv2, ?_⟩
  unfold ResolveOp
  rw [hc]
  show RpcTokenCallOp.GetExpectedKernelType indicate _ = _
  unfold RpcTokenCallOp.GetExpectedKernelType
  rw [hx]
  rfl

/-- C6, amended, at the configuration `use_ids = false` with no `vocab_path` and an `int32`
input `X` on the host. -/
theorem resolve_with_empty_vocab_path_succeeds_witness :
    ∃ attrs, (RpcTokenCallOpMaker.Make OpProto.empty).CheckAttrs
        [("use_ids", .BOOLEAN false)] = .ok attrs ∧
      attrs.lookup "use_ids" = some (.BOOLEAN false) ∧
      attrs.lookup "vocab_path" = some (.STRING "") ∧
      ResolveOp IndicateVarDataType [("X", Tensor.mk (some .INT32) [2] [3, 7])]
        [("use_ids", .BOOLEAN false)] .CPUPlace = .ok (OpKernelType.mk .INT32 .CPUPlace) :=
  resolve_with_empty_vocab_path_succeeds IndicateVarDataType
    [("X", Tensor.mk (some .INT32) [2] [3, 7])] [("use_ids", .BOOLEAN false)] .CPUPlace .INT32
    (by decide) (Or.inl (by decide)) (Or.inl (by decide)) (fun _ => rfl)

/-- The data type `IndicateVarDataType` gives for an input that is present. -/
theorem indicateVarDataType_some (ctx : ExecutionContext) (name : String) (t : Tensor)
    (h : ctx.Input name = some t) :
    IndicateVarDataType ctx name =
      match t.dtype with
      | some d => .ok d
      | none => .error .KernelTypeError := by
  unfold IndicateVarDataType
  rw [h]

/-- For an input that is absent `IndicateVarDataType` fails. -/
theorem indicateVarDataType_none (ctx : ExecutionContext) (name : String)
    (h : ctx.Input name = none) :
    IndicateVarDataType ctx name = .error .KernelTypeError := by
  unfold IndicateVarDataType
  rw [h]

/-- C7: when the data type of input `X` is unresolved (no variable `X`, or one without an
element type) or is not `int32` or `int64`, kernel-type resolution fails with
`KernelTypeError` and so does the step, whatever the kernels would compute: no kernel runs. -/
theorem runStep_fails_on_unresolved_or_unsupported_dtype {σ : Type}
    (compute : KernelSemantics σ) (ctx : ExecutionContext) (args : KernelArgs) (s : σ)
    (hX : ctx.Input "X" = none ∨
      ∃ t, ctx.Input "X" = some t ∧ t.dtype ≠ some .INT32 ∧ t.dtype ≠ some .INT64) :
    ChooseKernel (registrations OpRegistry.empty) IndicateVarDataType ctx =
        .error .KernelTypeError ∧
      RunStep (registrations OpRegistry.empty) IndicateVarDataType compute ctx args s =
        .error .KernelTypeError := by
  have hchoose : ChooseKernel (registrations OpRegistry.empty) IndicateVarDataType ctx =
      .error .KernelTypeError := by
    unfold ChooseKernel RpcTokenCallOp.GetExpectedKernelType
    rcases hX with hn | ⟨t, ht, h32, h64⟩
    · rw [indicateVarDataType_none ctx "X" hn]
      rfl
    · rw [indicateVarDataType_some ctx "X" t ht]
      cases hd : t.dtype with
      | none => rfl
      | some d =>
        have e32 : d ≠ .INT32 := fun h => h32 (by rw [hd, h])
        have e64 : d ≠ .INT64 := fun h => h64 (by rw [hd, h])
        show (match (registrations OpRegistry.empty).FindKernel "rpc_token_call"
            (OpKernelType.mk d ctx.GetPlace) with
          | some k => Except.ok k
          | none => Except.error Error.KernelTypeError) = _
        rw [findKernel_unsupported d ctx.GetPlace e32 e64]
  refine ⟨hchoose, ?_⟩
  unfold RunStep
  rw [hchoose]
  rfl

/-- C7, at a context without input `X`, at one whose `X` has no element type yet, and at one
whose `X` has an element type other than `int32` and `int64`, with a kernel semantics that
would return request id 0. -/
theorem runStep_fails_on_unresolved_or_unsupported_dtype_witness :
    (ChooseKernel (registrations OpRegistry.empty) IndicateVarDataType
        (ExecutionContext.mk [] [] .CPUPlace) = .error .KernelTypeError ∧
      RunStep (registrations OpRegistry.empty) IndicateVarDataType
        (fun _ _ (s : Nat) => .ok (0, s + 1))
        (ExecutionContext.mk [] [] .CPUPlace)
        (KernelArgs.mk [3, 7] 1 ["a", "b"] "" true) 0 = .error .KernelTypeError) ∧
    (ChooseKernel (registrations OpRegistry.empty) IndicateVarDataType
        (ExecutionContext.mk [("X", Tensor.mk none [] [])] [] .CPUPlace) =
        .error .KernelTypeError ∧
      RunStep (registrations OpRegistry.empty) IndicateVarDataType
        (fun _ _ (s : Nat) => .ok (0, s + 1))
        (ExecutionContext.mk [("X", Tensor.mk none [] [])] [] .CPUPlace)
        (KernelArgs.mk [3, 7] 1 ["a", "b"] "" true) 0 = .error .KernelTypeError) ∧
    (ChooseKernel (registrations OpRegistry.empty) IndicateVarDataType
        (ExecutionContext.mk [("X", Tensor.mk (some (.OTHER 5)) [2] [3, 7])] [] (.CUDAPlace 0)) =
        .error .KernelTypeError ∧
      RunStep (registrations OpRegistry.empty) IndicateVarDataType
        (fun _ _ (s : Nat) => .ok (0, s + 1))
        (ExecutionContext.mk [("X", Tensor.mk (some (.OTHER 5)) [2] [3, 7])] [] (.CUDAPlace 0))
        (KernelArgs.mk [3, 7] 1 ["a", "b"] "" true) 0 = .error .KernelTypeError) :=
  ⟨runStep_fails_on_unresolved_or_unsupported_dtype _ _ _ _ (Or.inl (by decide)),
   runStep_fails_on_unresolved_or_unsupported_dtype _ _ _ _
     (Or.inr ⟨Tensor.mk none [] [], by decide, by decide, by decide⟩),
   runStep_fails_on_unresolved_or_unsupported_dtype _ _ _ _
     (Or.inr ⟨Tensor.mk (some (.OTHER 5)) [2] [3, 7], by decide, by decide, by decide⟩)⟩

/-- C8: with `use_ids = true`, for every `url_list` and every selector value `i` with
`0 ≤ i < length(url_list)`, the kernel sends its request, carrying the ids of `X` as they
are, to the entry of `url_list` at index `i`; the url is a function of `url_list` and `i`
alone. -/
theorem compute_sends_to_selected_url {σ : Type} (send : String → Payload → σ → Int × σ)
    (translate : String → List Int → Option (List String)) (x : List Int) (i : Int)
    (url_list : List String) (vocab_path : String) (s : σ)
    (h0 : 0 ≤ i) (h1 : i < (url_list.length : Int)) :
    ∃ url, url_list[i.toNat]? = some url ∧ selectUrl url_list i = some url ∧
      RpcTokenCallOpKernel.Compute send translate
        (KernelArgs.mk x i url_list vocab_path true) s = some (send url (Payload.ids x) s) := by
  have hlt : i.toNat < url_list.length := by omega
  have hget : url_list[i.toNat]? = some url_list[i.toNat] :=
    List.getElem?_eq_getElem hlt
  have hsel : selectUrl url_list i = some url_list[i.toNat] := by
    unfold selectUrl
    rw [if_pos h0, hget]
  refine ⟨url_list[i.toNat], hget, hsel, ?_⟩
  unfold RpcTokenCallOpKernel.Compute
  simp only [hsel]
  rfl

/-- C8, at ids `[3, 7]`, selector `1` and `url_list = ["a", "b"]`, with a transport that
numbers the requests and records them: the one request goes to `"b"`. -/
theorem compute_sends_to_selected_url_witness :
    (∃ url, ["a", "b"][(1 : Int).toNat]? = some url ∧ selectUrl ["a", "b"] 1 = some url ∧
      RpcTokenCallOpKernel.Compute
        (fun url body (log : List (String × Payload)) => ((log.length : Int), log ++ [(url, body)]))
        (fun _ _ => none) (KernelArgs.mk [3, 7] 1 ["a", "b"] "" true) [] =
      some ((fun url body (log : List (String × Payload)) =>
        ((log.length : Int), log ++ [(url, body)])) url (Payload.ids [3, 7]) [])) ∧
    selectUrl ["a", "b"] 1 = some "b" ∧
    RpcTokenCallOpKernel.Compute
        (fun url body (log : List (String × Payload)) => ((log.length : Int), log ++ [(url, body)]))
        (fun _ _ => none) (KernelArgs.mk [3, 7] 1 ["a", "b"] "" true) [] =
      some (0, [("b", Payload.ids [3, 7])]) :=
  ⟨compute_sends_to_selected_url _ _ [3, 7] 1 ["a", "b"] "" [] (by decide) (by decide),
   by decide, by decide⟩

/-- Reading back what was just written. -/
theorem read_write_same (fs : FileSystem) (path : String) (a : Artifact) (text : String) :
    (fs.write path a text).read path a = some text := by
  simp [FileSystem.write, FileSystem.read]

/-- Writing one artifact leaves the other artifacts as they were. -/
theorem read_write_other (fs : FileSystem) (path : String) (a b : Artifact) (text : String)
    (h : b ≠ a) : (fs.write path a text).read path b = fs.read path b := by
  simp [FileSystem.write, FileSystem.read, h]

/-- C9: for every graph, every list of clusters (so every partition of the graph's operators
into N clusters), every encoding of name lists whose decoder gives the three lists of these
clusters back, and every writable path: `save_runtime_cinn_graph` succeeds with the graph as
it was, and re-reading and decoding the artifacts yields the operator lists, input lists and
output lists of the N clusters, position by position; the interval description is read back
as written. -/
theorem save_runtime_cinn_graph_roundtrip (graph : Graph) (clusters : List Cluster)
    (encode : List (List String) → String) (decode : String → Option (List (List String)))
    (intervals saved_path : String) (fs : FileSystem)
    (hw : fs.writable saved_path = true)
    (hops : decode (encode (clusters.map fun c => c.ops)) = some (clusters.map fun c => c.ops))
    (hins : decode (encode (clusters.map fun c => c.inputs)) =
      some (clusters.map fun c => c.inputs))
    (houts : decode (encode (clusters.map fun c => c.outputs)) =
      some (clusters.map fun c => c.outputs)) :
    ∃ fs', save_runtime_cinn_graph graph (encode (clusters.map fun c => c.ops))
        (encode (clusters.map fun c => c.inputs)) (encode (clusters.map fun c => c.outputs))
        intervals saved_path fs = .ok (graph, fs') ∧
      ∃ ops ins outs,
        (fs'.read saved_path .clusters_ops).bind decode = some ops ∧
        (fs'.read saved_path .clusters_inputs).bind decode = some ins ∧
        (fs'.read saved_path .cluster_outputs).bind decode = some outs ∧
        fs'.read saved_path .cluster_intervals = some intervals ∧
        ops.length = clusters.length ∧ ins.length = clusters.length ∧
        outs.length = clusters.length ∧
        ∀ (i : Nat) (c : Cluster), clusters[i]? = some c →
          ops[i]? = some c.ops ∧ ins[i]? = some c.inputs ∧ outs[i]? = some c.outputs := by
  refine ⟨_, by unfold save_runtime_cinn_graph; rw [if_pos hw], ?_⟩
  refine ⟨clusters.map fun c => c.ops, clusters.map fun c => c.inputs,
    clusters.map fun c => c.outputs, ?_, ?_, ?_, ?_, ?_, ?_, ?_, ?_⟩
  · rw [read_write_other _ _ _ _ _ (by decide), read_write_other _ _ _ _ _ (by decide),
      read_write_other _ _ _ _ _ (by decide), read_write_same]
    exact hops
  · rw [read_write_other _ _ _ _ _ (by decide), read_write_other _ _ _ _ _ (by decide),
      read_write_same]
    exact hins
  · rw [read_write_other _ _ _ _ _ (by decide), read_write_same]
    exact houts
  · rw [read_write_same]
  · simp
  · simp
  · simp
  · intro i c hc
    simp [hc]

/-- C9, at a graph of three operators cut into two clusters, with the comma-and-semicolon
encoding, exported under a writable path of an empty file system. -/
theorem save_runtime_cinn_graph_roundtrip_witness :
    ∃ fs', save_runtime_cinn_graph (Graph.mk ["matmul", "relu", "softmax"])
        (encodeNames [["matmul", "relu"], ["softmax"]])
        (encodeNames [["x", "w"], ["y"]]) (encodeNames [["y"], ["z"]])
        "0-2;2-3" "/tmp/graph" (FileSystem.mk (fun _ => true) (fun _ _ => none))
        = .ok (Graph.mk ["matmul", "relu", "softmax"], fs') ∧
      ∃ ops ins outs,
        (fs'.read "/tmp/graph" .clusters_ops).bind decodeNames = some ops ∧
        (fs'.read "/tmp/graph" .clusters_inputs).bind decodeNames = some ins ∧
        (fs'.read "/tmp/graph" .cluster_outputs).bind decodeNames = some outs ∧
        fs'.read "/tmp/graph" .cluster_intervals = some "0-2;2-3" ∧
        ops.length = 2 ∧ ins.length = 2 ∧ outs.length = 2 ∧
        ∀ (i : Nat) (c : Cluster),
          [Cluster.mk ["matmul", "relu"] ["x", "w"] ["y"] (0, 2),
           Cluster.mk ["softmax"] ["y"] ["z"] (2, 3)][i]? = some c →
          ops[i]? = some c.ops ∧ ins[i]? = some c.inputs ∧ outs[i]? = some c.outputs :=
  save_runtime_cinn_graph_roundtrip (Graph.mk ["matmul", "relu", "softmax"])
    [Cluster.mk ["matmul", "relu"] ["x", "w"] ["y"] (0, 2),
     Cluster.mk ["softmax"] ["y"] ["z"] (2, 3)]
    encodeNames decodeNames "0-2;2-3" "/tmp/graph"
    (FileSystem.mk (fun _ => true) (fun _ _ => none)) rfl (by decide) (by decide) (by decide)

/-- C10: two execution contexts that agree on the data type of `X` (on what
`IndicateVarDataType(ctx, "X")` gives) and on the place resolve to the same kernel type,
however they differ in the input `url_id` and in the attributes. -/
theorem getExpectedKernelType_depends_on_dtype_and_place (indicate : VarDataTypeFn)
    (ctx1 ctx2 : ExecutionContext) (hX : indicate ctx1 "X" = indicate ctx2 "X")
    (hplace : ctx1.GetPlace = ctx2.GetPlace) :
    RpcTokenCallOp.GetExpectedKernelType indicate ctx1 =
      RpcTokenCallOp.GetExpectedKernelType indicate ctx2 := by
  unfold RpcTokenCallOp.GetExpectedKernelType
  rw [hX, hplace]

/-- C10, at two contexts with the same `int32` input `X` on the host whose `url_id` inputs
differ in element type, shape and value and whose attributes `url_list`, `vocab_path` and
`use_ids` all differ. -/
theorem getExpectedKernelType_depends_on_dtype_and_place_witness :
    (ExecutionContext.mk
        [("X", Tensor.mk (some .INT32) [2] [3, 7]), ("url_id", Tensor.mk (some .INT32) [1] [0])]
        [("url_list", .STRINGS ["a", "b"]), ("vocab_path", .STRING ""), ("use_ids", .BOOLEAN true)]
        .CPUPlace ≠
      ExecutionContext.mk
        [("X", Tensor.mk (some .INT32) [2] [3, 7]), ("url_id", Tensor.mk (some .INT64) [1, 1] [1])]
        [("url_list", .STRINGS []), ("vocab_path", .STRING "/v"), ("use_ids", .BOOLEAN false)]
        .CPUPlace) ∧
    RpcTokenCallOp.GetExpectedKernelType IndicateVarDataType
      (ExecutionContext.mk
        [("X", Tensor.mk (some .INT32) [2] [3, 7]), ("url_id", Tensor.mk (some .INT32) [1] [0])]
        [("url_list", .STRINGS ["a", "b"]), ("vocab_path", .STRING ""), ("use_ids", .BOOLEAN true)]
        .CPUPlace) =
    RpcTokenCallOp.GetExpectedKernelType IndicateVarDataType
      (ExecutionContext.mk
        [("X", Tensor.mk (some .INT32) [2] [3, 7]), ("url_id", Tensor.mk (some .INT64) [1, 1] [1])]
        [("url_list", .STRINGS []), ("vocab_path", .STRING "/v"), ("use_ids", .BOOLEAN false)]
        .CPUPlace) :=
  ⟨by decide,
   getExpectedKernelType_depends_on_dtype_and_place IndicateVarDataType _ _ (by decide)
     (by decide)⟩

end paddle
